import Mathlib

/-!
Verification of the transportation emissions model
(src/transportation/emissions-model.ipynb).

The notebook defines a static emission-factor table `gco2e_per_km`
(grams of CO2e per passenger-kilometer, a pair [OWID, PSI] per mode),
derives `kgco2e_per_km` by dividing every entry by 1000, and a function
`recalc(model, distance_km, car_passangers)` that builds a dict mapping
six transport modes to total kilograms of CO2e for the trip, dividing by
the occupancy for the two car modes only, and renders it as an HTML
table (values formatted to one decimal place) and a bar chart.

Numbers are embedded as exact rationals; the integer slider values are
embedded as integers. Python raises ZeroDivisionError when dividing by
the integer 0, so `recalc` is embedded as returning `Except`, with the
error produced exactly when `car_passangers = 0`.
-/

/-- Python errors that the embedded code can raise. The only reachable
error in `recalc` is the ZeroDivisionError raised by `/ car_passangers`
when the occupancy is the integer 0. -/
inductive PyError where
  | zeroDivisionError
deriving DecidableEq, Repr

/-- The static emission table from the notebook, in grams of CO2e per
passenger-kilometer; each mode maps to the pair (OWID value, PSI value).
Entry order matches the Python dict literal. -/
def gco2e_per_km : List (String × (ℚ × ℚ)) :=
  [("bicycle", (0, 6)),
   ("coach bus", (27, 57)),
   ("gasoline car", (170, 242)),
   ("electric car", (48, 110)),
   ("motorbike", (114, 163)),
   ("tgv", (4, 21)),
   ("rail UK", (35, 0)),
   ("rail CH", (0, 7)),
   ("tram", (29, 43)),
   ("flight short", (246, 292)),
   ("flight long", (253, 285))]

/-- The derived table in kilograms per passenger-kilometer:
each value of `gco2e_per_km` divided by 1000, keys unchanged. -/
def kgco2e_per_km : List (String × (ℚ × ℚ)) :=
  gco2e_per_km.map (fun kv => (kv.1, (kv.2.1 / 1000, kv.2.2 / 1000)))

/-- Dict lookup `t[mode]` on an association list. The default (0, 0) is
only for totality; every lookup performed by the code hits a present key. -/
def dictGet (t : List (String × (ℚ × ℚ))) (mode : String) : ℚ × ℚ :=
  match t.find? (fun kv => kv.1 == mode) with
  | some kv => kv.2
  | none => (0, 0)

/-- Indexing `pair[idx]` for the two-element lists of the table:
index 0 is the OWID value, any other index the PSI value. -/
def sel (pair : ℚ × ℚ) (idx : Nat) : ℚ :=
  if idx = 0 then pair.1 else pair.2

/-- The dict `data` built inside `recalc`: the six output modes with
their trip totals, car modes divided by the occupancy. Mirrors the
Python dict literal, including `idx = 0 if model == OWID else 1`. -/
def recalcData (model : String) (distance_km car_passangers : ℤ) :
    List (String × ℚ) :=
  let idx : Nat := if model = "OWID" then 0 else 1
  [("bicycle", sel (dictGet kgco2e_per_km "bicycle") idx * (distance_km : ℚ)),
   ("coach bus", sel (dictGet kgco2e_per_km "coach bus") idx * (distance_km : ℚ)),
   ("gasoline car",
     sel (dictGet kgco2e_per_km "gasoline car") idx * (distance_km : ℚ) / (car_passangers : ℚ)),
   ("electric car",
     sel (dictGet kgco2e_per_km "electric car") idx * (distance_km : ℚ) / (car_passangers : ℚ)),
   ("motorbike", sel (dictGet kgco2e_per_km "motorbike") idx * (distance_km : ℚ)),
   ("rail CH", sel (dictGet kgco2e_per_km "rail CH") idx * (distance_km : ℚ))]

/-- The recalculator. Building the dict divides by the integer
`car_passangers` for the two car modes, so Python raises
ZeroDivisionError exactly when `car_passangers = 0`; otherwise the dict
`recalcData` is produced and rendered. -/
def recalc (model : String) (distance_km car_passangers : ℤ) :
    Except PyError (List (String × ℚ)) :=
  if car_passangers = 0 then Except.error PyError.zeroDivisionError
  else Except.ok (recalcData model distance_km car_passangers)

/-- Lookup `data[mode]` in a result mapping; 0 only as a totality
default for absent keys. -/
def resLookup (data : List (String × ℚ)) (mode : String) : ℚ :=
  match data.find? (fun kv => kv.1 == mode) with
  | some kv => kv.2
  | none => 0

/-- The six modes of the output dict of `recalc`, in insertion order. -/
def outputModes : List String :=
  ["bicycle", "coach bus", "gasoline car", "electric car", "motorbike", "rail CH"]

/-- The two modes whose totals the code divides by `car_passangers`. -/
def carModes : List String := ["gasoline car", "electric car"]

/-- Display rounding to one decimal place, as in the format string
used for the HTML table rows. -/
def displayRound (v : ℚ) : ℚ := round (v * 10) / 10

/-- The content of the rendered HTML table: one row per mode, the value
rounded to one decimal place. -/
def renderTable (data : List (String × ℚ)) : List (String × ℚ) :=
  data.map (fun kv => (kv.1, displayRound kv.2))

/-- The content of the bar chart: the values of the result mapping in
insertion order (labels are the keys, the y-range is fixed). -/
def chartValues (data : List (String × ℚ)) : List ℚ :=
  data.map Prod.snd

/-- Evaluation of the bicycle entry of the result dict. -/
lemma resLookup_recalcData_bicycle (model : String) (k p : ℤ) :
    resLookup (recalcData model k p) "bicycle"
      = (if model = "OWID" then (0 : ℚ) else 6 / 1000) * (k : ℚ) := by
  by_cases hm : model = "OWID" <;>
    simp [recalcData, resLookup, dictGet, sel, kgco2e_per_km, gco2e_per_km, List.find?, hm]

/-- Evaluation of the coach bus entry of the result dict. -/
lemma resLookup_recalcData_coach (model : String) (k p : ℤ) :
    resLookup (recalcData model k p) "coach bus"
      = (if model = "OWID" then (27 : ℚ) / 1000 else 57 / 1000) * (k : ℚ) := by
  by_cases hm : model = "OWID" <;>
    simp [recalcData, resLookup, dictGet, sel, kgco2e_per_km, gco2e_per_km, List.find?, hm]

/-- Evaluation of the gasoline car entry of the result dict. -/
lemma resLookup_recalcData_gasoline (model : String) (k p : ℤ) :
    resLookup (recalcData model k p) "gasoline car"
      = (if model = "OWID" then (170 : ℚ) / 1000 else 242 / 1000) * (k : ℚ) / (p : ℚ) := by
  by_cases hm : model = "OWID" <;>
    simp [recalcData, resLookup, dictGet, sel, kgco2e_per_km, gco2e_per_km, List.find?, hm]

/-- Evaluation of the electric car entry of the result dict. -/
lemma resLookup_recalcData_electric (model : String) (k p : ℤ) :
    resLookup (recalcData model k p) "electric car"
      = (if model = "OWID" then (48 : ℚ) / 1000 else 110 / 1000) * (k : ℚ) / (p : ℚ) := by
  by_cases hm : model = "OWID" <;>
    simp [recalcData, resLookup, dictGet, sel, kgco2e_per_km, gco2e_per_km, List.find?, hm]

/-- Evaluation of the motorbike entry of the result dict. -/
lemma resLookup_recalcData_motorbike (model : String) (k p : ℤ) :
    resLookup (recalcData model k p) "motorbike"
      = (if model = "OWID" then (114 : ℚ) / 1000 else 163 / 1000) * (k : ℚ) := by
  by_cases hm : model = "OWID" <;>
    simp [recalcData, resLookup, dictGet, sel, kgco2e_per_km, gco2e_per_km, List.find?, hm]

/-- Evaluation of the Swiss rail entry of the result dict. -/
lemma resLookup_recalcData_rail (model : String) (k p : ℤ) :
    resLookup (recalcData model k p) "rail CH"
      = (if model = "OWID" then (0 : ℚ) else 7 / 1000) * (k : ℚ) := by
  by_cases hm : model = "OWID" <;>
    simp [recalcData, resLookup, dictGet, sel, kgco2e_per_km, gco2e_per_km, List.find?, hm]

/-- C4: the recalculator reproduces the worked examples of the spec
exactly: at k=200, p=1 the gasoline-car result is 48.4 under PSI and
34.0 under OWID; at k=100, p=1 under PSI, bicycle = 0.6, rail CH = 0.7,
electric car = 11.0; and at k=100, p=4 under PSI, electric car = 2.75. -/
theorem recalc_worked_examples :
    recalc "PSI" 200 1 = Except.ok (recalcData "PSI" 200 1)
    ∧ resLookup (recalcData "PSI" 200 1) "gasoline car" = 48.4
    ∧ resLookup (recalcData "OWID" 200 1) "gasoline car" = 34.0
    ∧ resLookup (recalcData "PSI" 100 1) "bicycle" = 0.6
    ∧ resLookup (recalcData "PSI" 100 1) "rail CH" = 0.7
    ∧ resLookup (recalcData "PSI" 100 1) "electric car" = 11.0
    ∧ resLookup (recalcData "PSI" 100 4) "electric car" = 2.75 := by
  refine ⟨by simp [recalc], ?_, ?_, ?_, ?_, ?_, ?_⟩
  · rw [resLookup_recalcData_gasoline, if_neg (by decide)]; norm_num
  · rw [resLookup_recalcData_gasoline, if_pos rfl]; norm_num
  · rw [resLookup_recalcData_bicycle, if_neg (by decide)]; norm_num
  · rw [resLookup_recalcData_rail, if_neg (by decide)]; norm_num
  · rw [resLookup_recalcData_electric, if_neg (by decide)]; norm_num
  · rw [resLookup_recalcData_electric, if_neg (by decide)]; norm_num

/-- C5: the emission table has exactly the eleven required modes in
order, every per-kilometer factor pair is non-negative, and the PSI
(dataset-B) value for rail UK is exactly 0. -/
theorem emission_table_entries :
    gco2e_per_km.map Prod.fst
      = ["bicycle", "coach bus", "gasoline car", "electric car", "motorbike",
         "tgv", "rail UK", "rail CH", "tram", "flight short", "flight long"]
    ∧ (∀ kv ∈ kgco2e_per_km, 0 ≤ kv.2.1 ∧ 0 ≤ kv.2.2)
    ∧ (dictGet kgco2e_per_km "rail UK").2 = 0 := by
  refine ⟨rfl, ?_, ?_⟩
  · intro kv hkv
    simp only [kgco2e_per_km, gco2e_per_km, List.map] at hkv
    fin_cases hkv <;> norm_num
  · simp [dictGet, kgco2e_per_km, gco2e_per_km, List.find?]

/-- C1: for every dataset, distance k >= 0 and occupancy p >= 1, the
recalculated mapping satisfies result[mode] = table[mode][dataset] * k,
further divided by p exactly for the gasoline and electric car modes,
and every result value is non-negative. -/
theorem recalc_formula_nonneg (model : String) (k p : ℤ)
    (hm : model = "OWID" ∨ model = "PSI") (hk : 0 ≤ k) (hp : 1 ≤ p) :
    recalc model k p = Except.ok (recalcData model k p)
    ∧ ∀ mode ∈ outputModes,
        resLookup (recalcData model k p) mode
          = sel (dictGet kgco2e_per_km mode) (if model = "OWID" then 0 else 1)
              * (k : ℚ) / (if mode ∈ carModes then (p : ℚ) else 1)
        ∧ 0 ≤ resLookup (recalcData model k p) mode := by
  have hp0 : p ≠ 0 := by omega
  have hkQ : (0 : ℚ) ≤ (k : ℚ) := by exact_mod_cast hk
  have hpQ : (0 : ℚ) < (p : ℚ) := by exact_mod_cast (show (0 : ℤ) < p by omega)
  refine ⟨by simp [recalc, hp0], ?_⟩
  intro mode hmode
  simp only [outputModes] at hmode
  rcases hm with rfl | rfl <;> fin_cases hmode <;> refine ⟨?_, ?_⟩ <;>
    simp only [resLookup_recalcData_bicycle, resLookup_recalcData_coach,
      resLookup_recalcData_gasoline, resLookup_recalcData_electric,
      resLookup_recalcData_motorbike, resLookup_recalcData_rail] <;>
    simp [dictGet, sel, kgco2e_per_km, gco2e_per_km, List.find?, carModes] <;>
    positivity

/-- C1 witness at dataset PSI, k = 200, p = 1. -/
theorem recalc_formula_nonneg_witness :
    ("PSI" = "OWID" ∨ "PSI" = "PSI") ∧ (0 : ℤ) ≤ 200 ∧ (1 : ℤ) ≤ 1
    ∧ (recalc "PSI" 200 1 = Except.ok (recalcData "PSI" 200 1)
       ∧ ∀ mode ∈ outputModes,
           resLookup (recalcData "PSI" 200 1) mode
             = sel (dictGet kgco2e_per_km mode) (if "PSI" = "OWID" then 0 else 1)
                 * ((200 : ℤ) : ℚ) / (if mode ∈ carModes then ((1 : ℤ) : ℚ) else 1)
           ∧ 0 ≤ resLookup (recalcData "PSI" 200 1) mode) :=
  ⟨Or.inr rfl, by norm_num, by norm_num,
    recalc_formula_nonneg "PSI" 200 1 (Or.inr rfl) (by norm_num) (by norm_num)⟩

/-- C2: the result mapping of the recalculator is defined on exactly the
six modes bicycle, coach bus, gasoline car, electric car, motorbike and
rail CH, in that order, for every input that produces a result. -/
theorem recalc_output_modes (model : String) (k p : ℤ) (data : List (String × ℚ))
    (h : recalc model k p = Except.ok data) :
    data.map Prod.fst = outputModes := by
  by_cases hp : p = 0
  · simp [recalc, hp] at h
  · simp [recalc, hp] at h
    subst h
    rfl

/-- C2 witness at dataset PSI, k = 200, p = 1. -/
theorem recalc_output_modes_witness :
    recalc "PSI" 200 1 = Except.ok (recalcData "PSI" 200 1)
    ∧ (recalcData "PSI" 200 1).map Prod.fst = outputModes :=
  ⟨by norm_num [recalc], recalc_output_modes "PSI" 200 1 _ (by norm_num [recalc])⟩

/-- C3: for every dataset, distance k > 0 and occupancies p1 < p2 (both
at least 1), the gasoline and electric car results strictly decrease
from p1 to p2, while bicycle, coach bus, motorbike and rail CH results
are identical. -/
theorem recalc_occupancy_monotone (model : String) (k p1 p2 : ℤ)
    (hm : model = "OWID" ∨ model = "PSI") (hk : 0 < k) (h1 : 1 ≤ p1) (h12 : p1 < p2) :
    (∀ mode ∈ carModes,
        resLookup (recalcData model k p2) mode < resLookup (recalcData model k p1) mode)
    ∧ ∀ mode ∈ ["bicycle", "coach bus", "motorbike", "rail CH"],
        resLookup (recalcData model k p2) mode = resLookup (recalcData model k p1) mode := by
  have hkQ : (0 : ℚ) < (k : ℚ) := by exact_mod_cast hk
  have hp1Q : (0 : ℚ) < (p1 : ℚ) := by exact_mod_cast (show (0 : ℤ) < p1 by omega)
  have h12Q : (p1 : ℚ) < (p2 : ℚ) := by exact_mod_cast h12
  constructor
  · intro mode hmode
    simp only [carModes] at hmode
    fin_cases hmode
    · rw [resLookup_recalcData_gasoline, resLookup_recalcData_gasoline]
      refine div_lt_div_of_pos_left ?_ hp1Q h12Q
      rcases hm with rfl | rfl <;> simp <;> positivity
    · rw [resLookup_recalcData_electric, resLookup_recalcData_electric]
      refine div_lt_div_of_pos_left ?_ hp1Q h12Q
      rcases hm with rfl | rfl <;> simp <;> positivity
  · intro mode hmode
    fin_cases hmode <;>
      simp [resLookup_recalcData_bicycle, resLookup_recalcData_coach,
        resLookup_recalcData_motorbike, resLookup_recalcData_rail]

/-- C3 witness at dataset PSI, k = 100, p1 = 1, p2 = 2. -/
theorem recalc_occupancy_monotone_witness :
    ("PSI" = "OWID" ∨ "PSI" = "PSI") ∧ (0 : ℤ) < 100 ∧ (1 : ℤ) ≤ 1 ∧ (1 : ℤ) < 2
    ∧ ((∀ mode ∈ carModes,
          resLookup (recalcData "PSI" 100 2) mode < resLookup (recalcData "PSI" 100 1) mode)
       ∧ ∀ mode ∈ ["bicycle", "coach bus", "motorbike", "rail CH"],
          resLookup (recalcData "PSI" 100 2) mode = resLookup (recalcData "PSI" 100 1) mode) :=
  ⟨Or.inr rfl, by norm_num, by norm_num, by norm_num,
    recalc_occupancy_monotone "PSI" 100 1 2 (Or.inr rfl) (by norm_num) (by norm_num) (by norm_num)⟩

/-- C6: under the precondition car_passangers >= 1, the recalculator
never hits the zero-division error branch: it returns the result dict
for every dataset string and every distance. -/
theorem recalc_no_div_by_zero (model : String) (k p : ℤ) (hp : 1 ≤ p) :
    recalc model k p = Except.ok (recalcData model k p) := by
  have hp0 : p ≠ 0 := by omega
  simp [recalc, hp0]

/-- C6 witness at dataset OWID, k = 200, p = 1. -/
theorem recalc_no_div_by_zero_witness :
    (1 : ℤ) ≤ 1 ∧ recalc "OWID" 200 1 = Except.ok (recalcData "OWID" 200 1) :=
  ⟨by norm_num, recalc_no_div_by_zero "OWID" 200 1 (by norm_num)⟩

/-- C7 counterexample: at car_passangers = -1 the recalculator raises no
error at all and returns a result mapping, contradicting the claim that
a negative occupancy fails explicitly with an InvalidInput error. -/
theorem recalc_negative_occupancy_no_error :
    recalc "PSI" 100 (-1) = Except.ok (recalcData "PSI" 100 (-1)) := by
  norm_num [recalc]

/-- C7 amended: the code performs no input validation. At
car_passangers = 0 it fails with the ZeroDivisionError of the division,
not with an InvalidInput error; at negative car_passangers it raises no
error and returns a result mapping. -/
theorem recalc_invalid_occupancy_behavior (model : String) (k p : ℤ) (hp : p < 0) :
    recalc model k 0 = Except.error PyError.zeroDivisionError
    ∧ recalc model k p = Except.ok (recalcData model k p) := by
  have hp0 : p ≠ 0 := by omega
  exact ⟨by simp [recalc], by simp [recalc, hp0]⟩

/-- C7 amended witness at dataset PSI, k = 100, p = -1. -/
theorem recalc_invalid_occupancy_behavior_witness :
    (-1 : ℤ) < 0
    ∧ (recalc "PSI" 100 0 = Except.error PyError.zeroDivisionError
       ∧ recalc "PSI" 100 (-1) = Except.ok (recalcData "PSI" 100 (-1))) :=
  ⟨by norm_num, recalc_invalid_occupancy_behavior "PSI" 100 (-1) (by norm_num)⟩

/-- C8: the recalculator is deterministic: equal inputs give the
identical result, the identical rendered table rows and the identical
chart values. -/
theorem recalc_deterministic (m1 m2 : String) (k1 k2 p1 p2 : ℤ)
    (h : m1 = m2 ∧ k1 = k2 ∧ p1 = p2) :
    recalc m1 k1 p1 = recalc m2 k2 p2
    ∧ Except.map renderTable (recalc m1 k1 p1) = Except.map renderTable (recalc m2 k2 p2)
    ∧ Except.map chartValues (recalc m1 k1 p1) = Except.map chartValues (recalc m2 k2 p2) := by
  obtain ⟨rfl, rfl, rfl⟩ := h
  exact ⟨rfl, rfl, rfl⟩

/-- C8 witness at dataset PSI, k = 200, p = 1. -/
theorem recalc_deterministic_witness :
    ("PSI" = "PSI" ∧ (200 : ℤ) = 200 ∧ (1 : ℤ) = 1)
    ∧ (recalc "PSI" 200 1 = recalc "PSI" 200 1
       ∧ Except.map renderTable (recalc "PSI" 200 1) = Except.map renderTable (recalc "PSI" 200 1)
       ∧ Except.map chartValues (recalc "PSI" 200 1) = Except.map chartValues (recalc "PSI" 200 1)) :=
  ⟨⟨rfl, rfl, rfl⟩, recalc_deterministic "PSI" "PSI" 200 200 1 1 ⟨rfl, rfl, rfl⟩⟩

/-- C9: every dataset-selector string other than OWID selects the PSI
factors: the run is indistinguishable from selecting PSI, and no error
is raised because of the unrecognized name. -/
theorem recalc_unrecognized_dataset_is_psi (model : String) (k p : ℤ)
    (h : model ≠ "OWID") :
    recalc model k p = recalc "PSI" k p := by
  have hdata : recalcData model k p = recalcData "PSI" k p := by
    simp [recalcData, h]
  simp [recalc, hdata]

/-- C9 witness at the unrecognized dataset string mobitool. -/
theorem recalc_unrecognized_dataset_is_psi_witness :
    "mobitool" ≠ "OWID" ∧ recalc "mobitool" 200 1 = recalc "PSI" 200 1 :=
  ⟨by decide, recalc_unrecognized_dataset_is_psi "mobitool" 200 1 (by decide)⟩

/-- C10: under the OWID dataset the bicycle and rail CH results are
exactly 0 for every distance k >= 0 and occupancy p >= 1: the 0-entries
of the table flow into the output as literal zero emissions. -/
theorem recalc_owid_zero_factor_modes (k p : ℤ) (hk : 0 ≤ k) (hp : 1 ≤ p) :
    recalc "OWID" k p = Except.ok (recalcData "OWID" k p)
    ∧ resLookup (recalcData "OWID" k p) "bicycle" = 0
    ∧ resLookup (recalcData "OWID" k p) "rail CH" = 0 := by
  have hp0 : p ≠ 0 := by omega
  refine ⟨by simp [recalc, hp0], ?_, ?_⟩
  · rw [resLookup_recalcData_bicycle, if_pos rfl]; ring
  · rw [resLookup_recalcData_rail, if_pos rfl]; ring

/-- C10 witness at k = 100, p = 1. -/
theorem recalc_owid_zero_factor_modes_witness :
    (0 : ℤ) ≤ 100 ∧ (1 : ℤ) ≤ 1
    ∧ (recalc "OWID" 100 1 = Except.ok (recalcData "OWID" 100 1)
       ∧ resLookup (recalcData "OWID" 100 1) "bicycle" = 0
       ∧ resLookup (recalcData "OWID" 100 1) "rail CH" = 0) :=
  ⟨by norm_num, by norm_num, recalc_owid_zero_factor_modes 100 1 (by norm_num) (by norm_num)⟩
